import Mathlib

/-!
Verification of the authentication substrate of `Hermitf/the-pass`:
the SMS one-time-code service (Redis-backed store with Lua scripts and
the orchestrating service) and the scan-to-login ticket state machine.

The definitions below are shallow embeddings translated from the Go
sources: `backend/pkg/sms/scripts.go` (the three Lua scripts),
the Redis store (`RedisStore` methods), the code service (`Service`),
`backend/pkg/sms/type.go` (`GenerateCode`), and
`backend/internal/auth_qr` (`Store.GetTicket` / `Store.UpdateTicket`
and the `MarkScanned` / `Confirm` / `Reject` actions).

Machine times are modelled as integers (nanoseconds for the rate
window, abstract instants for tickets).  Redis per-key state is
modelled explicitly; randomness and the external sender are oracle
inputs.  Go errors are modelled by an inductive type mirroring
`errors.New` / `fmt.Errorf("...: %w", err)` / `errors.Join`, with a
wrapping-aware comparison mirroring `errors.Is`.
-/

namespace ThePass

/-- Model of Go `error` values as produced by this repository:
`sentinel` is `errors.New(msg)`, `wrap` is `fmt.Errorf(msg+": %w", cause)`,
`join` is the two-argument `errors.Join`, `redisNil` is `redis.Nil`. -/
inductive GoErr where
  | sentinel (msg : String)
  | wrap (msg : String) (cause : GoErr)
  | join (e1 e2 : GoErr)
  | redisNil
deriving DecidableEq

/-- Model of Go `errors.Is`: identity, then recursion through the
unwrap chain (`wrap` exposes its cause, `join` exposes both parts). -/
def errorsIs (e target : GoErr) : Bool :=
  if e = target then true
  else
    match e with
    | .wrap _ cause => errorsIs cause target
    | .join e1 e2 => errorsIs e1 target || errorsIs e2 target
    | _ => false

/-- Sentinel `ErrPhoneInvalid` from the sms errors file. -/
def errPhoneInvalid : GoErr := .sentinel "手机号格式不正确"

/-- Sentinel `ErrCodeEmpty`. -/
def errCodeEmpty : GoErr := .sentinel "验证码为空"

/-- Sentinel `ErrCodeExpired`. -/
def errCodeExpired : GoErr := .sentinel "验证码已过期或不存在"

/-- Sentinel `ErrCodeMismatch`. -/
def errCodeMismatch : GoErr := .sentinel "验证码不匹配"

/-- Sentinel `ErrSendTooFrequent`. -/
def errSendTooFrequent : GoErr := .sentinel "发送过于频繁，请稍后再试"

/-- Sentinel `ErrDailyLimitReached`. -/
def errDailyLimitReached : GoErr := .sentinel "当天发送次数已达上限"

/-- Sentinel `ErrProviderDisabled`. -/
def errProviderDisabled : GoErr := .sentinel "短信服务未启用"

/-- Sentinel `ErrStoreFailure`. -/
def errStoreFailure : GoErr := .sentinel "短信存储访问失败"

/-- Sentinel `ErrTicketNotFound` from `auth_qr/type.go`. -/
def errTicketNotFound : GoErr := .sentinel "票据不存在或已失效"

/-- Sentinel `ErrTicketExpired` from `auth_qr/type.go`. -/
def errTicketExpired : GoErr := .sentinel "票据已过期"

/-- Model of `wrapRedisErr` (sms helpers): joins the `ErrStoreFailure`
sentinel with a message-wrapped copy of the underlying cache error.
The Go function is only reached with a non-nil error. -/
def wrapRedisErr (op key : String) (e : GoErr) : GoErr :=
  .join errStoreFailure (.wrap ("redis " ++ op ++ " key=" ++ key) e)

/-- State of one phone's rate-limit sorted set (`sms:rate_z:{phone}`):
the set of recorded timestamp scores (member and score coincide in the
source, so a `Finset` is faithful) plus the key's pending expiry. -/
structure RateState where
  window : Finset ℤ
  expiry : Option ℤ
deriving DecidableEq

/-- Model of `luaRateLimitScript`: `ZREMRANGEBYSCORE zkey -inf windowStart`
(drops every score `≤ windowStart`), `ZADD zkey now now`, `ZCARD`,
`EXPIRE zkey expireSeconds`, returning `{1, count}` when
`count <= maxCount` and `{0, count}` otherwise. -/
def luaRateLimit (st : RateState) (nowScore windowScore maxCount expireSeconds : ℤ) :
    RateState × ℤ × ℤ :=
  let w1 := st.window.filter (fun ts => windowScore < ts)
  let w2 := insert nowScore w1
  let count : ℤ := w2.card
  (⟨w2, some expireSeconds⟩, if count ≤ maxCount then 1 else 0, count)

/-- Model of `RedisStore.CheckRateLimitCtx`: `maxCount ≤ 0` short-circuits
to allowed with no cache access; otherwise the Lua script runs with
`windowStart = now − interval` and expiry `interval` in whole seconds,
and the call returns whether the script's first result equals 1. -/
def CheckRateLimitCtx (st : RateState) (now maxCount interval : ℤ) : RateState × Bool :=
  if maxCount ≤ 0 then (st, true)
  else
    let r := luaRateLimit st now (now - interval) maxCount (interval / 1000000000)
    (r.1, decide (r.2.1 = 1))

/-- Model of `luaPeekRateScript`: `ZCOUNT zkey windowStart +inf`; if
`count < maxCount` return `{1, 0}`; otherwise
`ZRANGEBYSCORE zkey windowStart +inf WITHSCORES LIMIT 0 1` yields the
earliest in-window score, returned as `{0, earliest}` (or `{0, 0}` when
the range is empty).  The script issues only read commands, so the
state component of the result is the input state. -/
def luaPeekRate (st : RateState) (windowScore maxCount : ℤ) :
    RateState × ℤ × ℤ :=
  let inWindow := st.window.filter (fun ts => windowScore ≤ ts)
  let count : ℤ := inWindow.card
  if count < maxCount then (st, 1, 0)
  else
    match inWindow.min with
    | some earliest => (st, 0, earliest)
    | none => (st, 0, 0)

/-- Model of `RedisStore.PeekRateCtx`: `maxCount ≤ 0` short-circuits to
`(true, 0)`; otherwise run the peek script and, when denied, report
`earliest + interval − now` clamped at zero as the retry hint. -/
def PeekRateCtx (st : RateState) (now maxCount interval : ℤ) : Bool × ℤ :=
  if maxCount ≤ 0 then (true, 0)
  else
    let r := luaPeekRate st (now - interval) maxCount
    if r.2.1 = 1 then (true, 0)
    else
      let deltaNs := r.2.2 + interval - now
      (false, if deltaNs < 0 then 0 else deltaNs)

/-- State of one phone's daily counter key (`sms:daily:{date}:{phone}`):
absent, or present with a value and an optional remaining TTL. -/
abbrev DailyCell : Type := Option (ℤ × Option ℤ)

/-- Redis `TTL`: `-2` when the key does not exist, `-1` when it exists
without an expiry, otherwise the remaining TTL. -/
def redisTTL : DailyCell → ℤ
  | none => -2
  | some (_, none) => -1
  | some (_, some t) => t

/-- Redis `INCR`: creates the key at 1 (with no TTL) when absent,
otherwise increments; returns the post-increment value. -/
def redisINCR : DailyCell → DailyCell × ℤ
  | none => (some (1, none), 1)
  | some (v, ttl) => (some (v + 1, ttl), v + 1)

/-- Model of `luaDailyIncrScript`: read `TTL dkey`, then `INCR dkey`,
then `EXPIRE dkey expireSeconds` only when the TTL read beforehand was
exactly `-1`; return the post-increment count. -/
def luaDailyIncr (st : DailyCell) (expireSeconds : ℤ) : DailyCell × ℤ :=
  let ttl := redisTTL st
  let r := redisINCR st
  let st2 :=
    if ttl = -1 then
      match r.1 with
      | some (v, _) => some (v, some expireSeconds)
      | none => none
    else r.1
  (st2, r.2)

/-- Model of `RedisStore.IncrementDailyCountCtx`: computes the seconds
until end of day (an oracle input here), falls back to 24 hours when
that is non-positive, and runs the daily-increment script. -/
def IncrementDailyCountCtx (st : DailyCell) (endOfDaySecs : ℤ) : DailyCell × ℤ :=
  luaDailyIncr st (if endOfDaySecs ≤ 0 then 24 * 60 * 60 else endOfDaySecs)

/-- Combined per-phone cache state used by the code store and service:
the code key (`sms:code:{phone}`), the rate window, and the daily
counter. -/
structure SmsState where
  code : Option String
  rate : RateState
  daily : DailyCell

/-- Model of `RedisStore.codeKey`: the key is `pref ++ ":code:" ++ phone`
(default prefix `"sms"`). -/
def codeKey (pref phone : String) : String := pref ++ ":code:" ++ phone

/-- Model of `RedisStore.GetCodeCtx`: Redis `GET` on the code key; an
absent key yields `redis.Nil`, which the store wraps through
`wrapRedisErr` like every other cache error. -/
def GetCodeCtx (st : SmsState) (pref phone : String) : Except GoErr String :=
  match st.code with
  | none => .error (wrapRedisErr "GET" (codeKey pref phone) .redisNil)
  | some v => .ok v

/-- Model of `RedisStore.SaveCodeCtx` on the cache state: `SET` with TTL
overwrites any existing code (the TTL itself is delegated to the cache
and not tracked here; logging is out of model). -/
def SaveCodeCtx (st : SmsState) (c : String) : SmsState :=
  { st with code := some c }

/-- Model of `RedisStore.DeleteCodeCtx` on the cache state: `DEL` on the
code key, idempotent. -/
def DeleteCodeCtx (st : SmsState) : SmsState :=
  { st with code := none }

/-- Model of `SMSRuntimeConfig`. -/
structure SMSRuntimeConfig where
  enabled : Bool
  expireIn : ℤ
  rateMax : ℤ
  rateWindow : ℤ
  dailyMax : ℤ
  template : String

/-- Decision core of `Service.VerifyCode`, written (like the Go method)
against the result of the store read: empty input fails `ErrCodeEmpty`;
a read error or an empty stored value fails `ErrCodeExpired`; an
unequal stored value fails `ErrCodeMismatch`; a match succeeds and
requests the delete (second component). -/
def verifyCodeWith (readRes : Except GoErr String) (c : String) : Option GoErr × Bool :=
  if c = "" then (some errCodeEmpty, false)
  else
    match readRes with
    | .error _ => (some errCodeExpired, false)
    | .ok stored =>
      if stored = "" then (some errCodeExpired, false)
      else if stored ≠ c then (some errCodeMismatch, false)
      else (none, true)

/-- Model of `Service.VerifyCode` over the cache state: runs the
decision core on the store read and applies the one-shot delete on
success (the delete's error is discarded in the source). -/
def VerifyCode (st : SmsState) (pref phone c : String) : SmsState × Option GoErr :=
  let r := verifyCodeWith (GetCodeCtx st pref phone) c
  (if r.2 then DeleteCodeCtx st else st, r.1)

/-- Length constant `CodeLength` from `type.go`. -/
def CodeLength : Nat := 6

/-- Alphabet constant `digitsAlphabet` from `type.go`. -/
def digitsAlphabet : String := "0123456789"

/-- Index computed by `GenerateCode` for one random byte:
`int(buf[i]) % len(digitsAlphabet)`. -/
def digitIndex (b : Nat) : Nat := b % digitsAlphabet.length

/-- Character produced by `GenerateCode` for one random byte:
`digitsAlphabet[digitIndex b]`. -/
def byteToDigitChar (b : Nat) : Char := digitsAlphabet.toList.getD (digitIndex b) '0'

/-- Main path of `GenerateCode`: map each of the six random bytes
through the alphabet. -/
def generateCodeFromBytes (bs : List Nat) : String := String.mk (bs.map byteToDigitChar)

/-- Constant `fallbackMod` from `type.go`. -/
def fallbackMod : Nat := 1000000

/-- Model of `formatDigits` (the loop fills the buffer from the last
position with `num % 10`, dividing `num` by 10 each step): the list of
the low `k` decimal digits of `num`, most significant first. -/
def formatDigitsList : Nat → Nat → List Char
  | 0, _ => []
  | k + 1, num => formatDigitsList k (num / 10) ++ [digitsAlphabet.toList.getD (num % 10) '0']

/-- Model of `formatDigits`: a fixed `CodeLength`-character string. -/
def formatDigits (num : Nat) : String := String.mk (formatDigitsList CodeLength num)

/-- Model of `fallbackCode`: `formatDigits(int(time.Now().UnixNano() % fallbackMod))`,
with the (positive) nanosecond clock as an oracle input. -/
def fallbackCode (nowNano : Nat) : String := formatDigits (nowNano % fallbackMod)

/-- Model of `GenerateCode`: the crypto source either yields six random
bytes or fails (`none`), in which case the timestamp fallback runs. -/
def GenerateCode (randBytes : Option (Fin CodeLength → Nat)) (nowNano : Nat) : String :=
  match randBytes with
  | some f => generateCodeFromBytes (List.ofFn f)
  | none => fallbackCode nowNano

/-- Model of `Service.SendCode`.  Oracle inputs stand for the
environment: `phoneValid` for `validator.IsPhone`, `now` and
`endOfDaySecs` for the clock, `gen` for the generated code,
`senderRes` for the provider call's result and `deleteRes` for the
result of the compensating delete (which the source discards with
`_ =`).  Step order follows the source: enabled check, phone check,
write-mode rate limit, optional daily limit, save, send, and on sender
failure delete the code and return the send-failure wrap of the cause. -/
def SendCode (cfg : SMSRuntimeConfig) (st : SmsState) (phone : String)
    (phoneValid : Bool) (now endOfDaySecs : ℤ) (gen : String)
    (senderRes : Option GoErr) (deleteRes : Option GoErr) : SmsState × Option GoErr :=
  if ¬ cfg.enabled then (st, some errProviderDisabled)
  else if phone = "" ∨ ¬ phoneValid then (st, some errPhoneInvalid)
  else
    let rl := CheckRateLimitCtx st.rate now cfg.rateMax cfg.rateWindow
    let st1 := { st with rate := rl.1 }
    if ¬ rl.2 then (st1, some errSendTooFrequent)
    else
      let afterDaily :=
        if cfg.dailyMax ≤ 0 then (st1, (none : Option GoErr))
        else
          let di := IncrementDailyCountCtx st1.daily endOfDaySecs
          let st2 := { st1 with daily := di.1 }
          if cfg.dailyMax < di.2 then (st2, some errDailyLimitReached) else (st2, none)
      match afterDaily.2 with
      | some e => (afterDaily.1, some e)
      | none =>
        let st3 := SaveCodeCtx afterDaily.1 gen
        match senderRes with
        | some e =>
          let _ := deleteRes
          (DeleteCodeCtx st3, some (.wrap "短信发送失败" e))
        | none => (st3, none)

/-- Status constants of `auth_qr/type.go`. -/
inductive TicketStatus where
  | pending
  | scanned
  | confirmed
  | rejected
deriving DecidableEq

/-- Ticket metadata: Go's `map[string]string`, modelled as an
association list with at most one binding per key. -/
abbrev Metadata : Type := List (String × String)

/-- Assignment `dst[k] = v` on the metadata map: overwrite the existing
binding or append a new one. -/
def setMetaKey (m : Metadata) (k v : String) : Metadata :=
  if (List.any m fun p => p.1 = k) then
    List.map (fun p => if p.1 = k then (k, v) else p) m
  else m ++ [(k, v)]

/-- Model of `mergeMetadata`: an empty or nil source map is a no-op;
otherwise every source binding is written into the destination
(last-writer-wins per key; a nil destination behaves as empty). -/
def mergeMetadata (dst src : Metadata) : Metadata :=
  if List.isEmpty src then dst
  else List.foldl (fun acc p => setMetaKey acc p.1 p.2) dst src

/-- Model of the `Ticket` record of `auth_qr/type.go`.  Instants are
abstract integers. -/
structure Ticket where
  id : String
  status : TicketStatus
  expiresAt : ℤ
  userID : ℤ
  userType : String
  createdAt : ℤ
  updatedAt : ℤ
  metadata : Metadata
deriving DecidableEq

/-- Model of `Store.GetTicket` on one key's cell: absent fails
`ErrTicketNotFound`; a ticket whose expiry instant is strictly before
`now` fails `ErrTicketExpired`; otherwise the ticket is returned. -/
def GetTicket (st : Option Ticket) (now : ℤ) : Except GoErr Ticket :=
  match st with
  | none => .error errTicketNotFound
  | some t => if t.expiresAt < now then .error errTicketExpired else .ok t

/-- Model of `Store.UpdateTicket` on one key's cell: read (absent fails
`ErrTicketNotFound`, strictly past expiry fails `ErrTicketExpired`),
run the mutator, refresh `updated_at` to `now`, compute the remaining
TTL `expires_at − now`, refuse `ErrTicketExpired` when it is
non-positive, else write back with that TTL.  Result: the cell after
the call, the TTL written (if any), and the returned value. -/
def UpdateTicket (st : Option Ticket) (now : ℤ)
    (mutate : Ticket → Except GoErr Ticket) :
    Option Ticket × Option ℤ × Except GoErr Ticket :=
  match st with
  | none => (st, none, .error errTicketNotFound)
  | some t =>
    if t.expiresAt < now then (st, none, .error errTicketExpired)
    else
      match mutate t with
      | .error e => (st, none, .error e)
      | .ok u =>
        let u2 := { u with updatedAt := now }
        let remaining := u2.expiresAt - now
        if remaining ≤ 0 then (st, none, .error errTicketExpired)
        else (some u2, some remaining, .ok u2)

/-- Mutator of `Store.MarkScanned`: `pending` advances to `scanned`
merging metadata; `scanned` is idempotent and merely merges metadata;
terminal states fail `ErrTicketExpired`. -/
def markScannedMutator (meta : Metadata) (t : Ticket) : Except GoErr Ticket :=
  match t.status with
  | .pending => .ok { t with status := .scanned, metadata := mergeMetadata t.metadata meta }
  | .scanned => .ok { t with metadata := mergeMetadata t.metadata meta }
  | _ => .error errTicketExpired

/-- Mutator of `Store.Confirm`: only `scanned` advances to `confirmed`,
binding `user_id` and `user_type` and merging metadata; every other
state fails `ErrTicketExpired`. -/
def confirmMutator (uid : ℤ) (utype : String) (meta : Metadata) (t : Ticket) :
    Except GoErr Ticket :=
  if t.status = .scanned then
    .ok { t with status := .confirmed, userID := uid, userType := utype,
                 metadata := mergeMetadata t.metadata meta }
  else .error errTicketExpired

/-- Mutator of `Store.Reject`: `pending` or `scanned` advance to
`rejected`, writing the reason under `reject_reason` and then merging
the caller metadata; terminal states fail `ErrTicketExpired`. -/
def rejectMutator (reason : String) (meta : Metadata) (t : Ticket) :
    Except GoErr Ticket :=
  match t.status with
  | .pending =>
    .ok { t with status := .rejected,
                 metadata := mergeMetadata (mergeMetadata t.metadata [("reject_reason", reason)]) meta }
  | .scanned =>
    .ok { t with status := .rejected,
                 metadata := mergeMetadata (mergeMetadata t.metadata [("reject_reason", reason)]) meta }
  | _ => .error errTicketExpired

/-- Model of `Store.MarkScanned`: `UpdateTicket` with the scan mutator. -/
def MarkScanned (st : Option Ticket) (now : ℤ) (meta : Metadata) :
    Option Ticket × Option ℤ × Except GoErr Ticket :=
  UpdateTicket st now (markScannedMutator meta)

/-- Model of `Store.Confirm`: `UpdateTicket` with the confirm mutator. -/
def Confirm (st : Option Ticket) (now : ℤ) (uid : ℤ) (utype : String) (meta : Metadata) :
    Option Ticket × Option ℤ × Except GoErr Ticket :=
  UpdateTicket st now (confirmMutator uid utype meta)

/-- Model of `Store.Reject`: `UpdateTicket` with the reject mutator. -/
def Reject (st : Option Ticket) (now : ℤ) (reason : String) (meta : Metadata) :
    Option Ticket × Option ℤ × Except GoErr Ticket :=
  UpdateTicket st now (rejectMutator reason meta)

/-- Rank of a status in the monotone order
`pending ≤ scanned ≤ {confirmed, rejected}`. -/
def statusRank : TicketStatus → Nat
  | .pending => 0
  | .scanned => 1
  | .confirmed => 2
  | .rejected => 2

/-- One semantic ticket action, for reasoning about call sequences. -/
inductive TicketOp where
  | scan (meta : Metadata)
  | confirmOp (uid : ℤ) (utype : String) (meta : Metadata)
  | rejectOp (reason : String) (meta : Metadata)

/-- Cell state after one semantic action. -/
def applyOp (st : Option Ticket) (now : ℤ) : TicketOp → Option Ticket
  | .scan meta => (MarkScanned st now meta).1
  | .confirmOp uid utype meta => (Confirm st now uid utype meta).1
  | .rejectOp reason meta => (Reject st now reason meta).1

/-- Cell state after a sequence of semantic actions, each with its own
call instant. -/
def runOps (st : Option Ticket) : List (ℤ × TicketOp) → Option Ticket
  | [] => st
  | (now, op) :: rest => runOps (applyOp st now op) rest

/-! ### Helper lemmas -/

lemma errorsIs_self (e : GoErr) : errorsIs e e = true := by
  rw [errorsIs.eq_def, if_pos rfl]

lemma errorsIs_wrap (msg : String) (e t : GoErr) (h : errorsIs e t = true) :
    errorsIs (.wrap msg e) t = true := by
  rw [errorsIs.eq_def]
  split
  · rfl
  · exact h

lemma errorsIs_join_left (e1 e2 t : GoErr) (h : errorsIs e1 t = true) :
    errorsIs (.join e1 e2) t = true := by
  rw [errorsIs.eq_def]
  split
  · rfl
  · simp [h]

lemma errorsIs_join_right (e1 e2 t : GoErr) (h : errorsIs e2 t = true) :
    errorsIs (.join e1 e2) t = true := by
  rw [errorsIs.eq_def]
  split
  · rfl
  · simp [h]

/-! ### C5 -/

/-- Claim C5, evaluated at the failing input: when the daily counter key
is absent (the first send of a day), `luaDailyIncrScript` reads
`TTL = -2`, creates the key via `INCR`, and — because its guard tests
`ttl == -1` only — sets no expiry, leaving the freshly created counter
without a TTL (`redisTTL = -1`); only a second increment repairs it. -/
theorem c5_daily_incr_no_ttl_eval :
    IncrementDailyCountCtx none 86400 = (some (1, none), 1)
    ∧ redisTTL (IncrementDailyCountCtx none 86400).1 = -1
    ∧ IncrementDailyCountCtx (some (1, none)) 86400 = (some (2, some 86400), 2) := by
  decide

/-! ### C1 -/

/-- Claim C1, as stated, is false at the window boundary: with the
window holding exactly the timestamp `now − window` (here `0` with
`now = 5`, `window = 5`), that entry is not older than `now − window`,
yet `CheckRateLimit` discards it (`ZREMRANGEBYSCORE -inf windowStart`
is inclusive), so the resulting window is `{now}` only. -/
theorem c1_rate_limit_counterexample :
    (0 : ℤ) ∉ (CheckRateLimitCtx ⟨{0}, none⟩ 5 1 5).1.window
    ∧ ¬ ((0 : ℤ) < 5 - 5)
    ∧ (CheckRateLimitCtx ⟨{0}, none⟩ 5 1 5).1.window = {5} := by
  decide

/-- Claim C1 (amended: the script discards timestamps older than **or
equal to** `now − window`): for `maxCount > 0`, `CheckRateLimit` runs
the atomic script, which discards every entry `≤ now − window`, appends
`now` as score and member, counts the members, sets the structure's
expiry to the window in whole seconds, and returns the boolean
`count ≤ maxCount`; the script also returns the count itself; for
`maxCount ≤ 0` the call returns allowed with no writes. -/
theorem c1_rate_limit_amended (st : RateState) (now maxCount interval : ℤ) :
    (0 < maxCount →
      CheckRateLimitCtx st now maxCount interval =
        (⟨insert now (st.window.filter fun ts => now - interval < ts),
          some (interval / 1000000000)⟩,
         decide (((insert now (st.window.filter fun ts => now - interval < ts)).card : ℤ)
            ≤ maxCount)))
    ∧ (maxCount ≤ 0 → CheckRateLimitCtx st now maxCount interval = (st, true))
    ∧ (luaRateLimit st now (now - interval) maxCount (interval / 1000000000)).2.2 =
        ((insert now (st.window.filter fun ts => now - interval < ts)).card : ℤ) := by
  refine ⟨fun h => ?_, fun h => ?_, ?_⟩
  · unfold CheckRateLimitCtx luaRateLimit
    rw [if_neg (not_le.mpr h)]
    by_cases hc :
        (((insert now (st.window.filter fun ts => now - interval < ts)).card : ℤ) ≤ maxCount) <;>
      simp [hc]
  · unfold CheckRateLimitCtx
    rw [if_pos h]
  · unfold luaRateLimit
    by_cases hc :
        (((insert now (st.window.filter fun ts => now - interval < ts)).card : ℤ) ≤ maxCount) <;>
      simp [hc]

/-- Witness for the amended C1 theorem at a concrete input. -/
theorem c1_rate_limit_witness :
    (0 : ℤ) < 1
    ∧ CheckRateLimitCtx ⟨∅, none⟩ 0 1 1000000000 = (⟨{0}, some 1⟩, true) := by
  refine ⟨by decide, ?_⟩
  have h := (c1_rate_limit_amended ⟨∅, none⟩ 0 1 1000000000).1 (by decide)
  rw [h]
  decide

/-! ### C9 -/

/-- Claim C9, as stated, is false: the byte-to-digit mapping
`b ↦ digitsAlphabet[b % 10]` does not give every digit the same number
of preimages among the 256 byte values — digit 0 has 26 preimages while
digit 6 has 25 (256 is not divisible by 10). -/
theorem c9_bias_counterexample :
    ((Finset.range 256).filter (fun b => digitIndex b = 0)).card = 26
    ∧ ((Finset.range 256).filter (fun b => digitIndex b = 6)).card = 25
    ∧ ((Finset.range 256).filter (fun b => digitIndex b = 0)).card ≠
        ((Finset.range 256).filter (fun b => digitIndex b = 6)).card := by
  decide

lemma digitsAlphabet_getD_isDigit (i : Nat) :
    (digitsAlphabet.toList.getD i '0').isDigit = true := by
  by_cases h : i < 10
  · have hall : ∀ j, j < 10 → ((digitsAlphabet.toList.getD j '0').isDigit = true) := by decide
    exact hall i h
  · have hlen : digitsAlphabet.toList.length ≤ i := by
      have h10 : digitsAlphabet.toList.length = 10 := by decide
      omega
    rw [List.getD_eq_default _ _ hlen]
    decide

lemma byteToDigitChar_isDigit (b : Nat) : (byteToDigitChar b).isDigit = true :=
  digitsAlphabet_getD_isDigit (digitIndex b)

lemma formatDigitsList_length (k num : Nat) : (formatDigitsList k num).length = k := by
  induction k generalizing num with
  | zero => rfl
  | succ k ih => simp [formatDigitsList, ih]

lemma formatDigitsList_all_digit (k num : Nat) :
    (formatDigitsList k num).all Char.isDigit = true := by
  induction k generalizing num with
  | zero => rfl
  | succ k ih =>
    simp [formatDigitsList, ih]
    simpa [List.getD] using digitsAlphabet_getD_isDigit (num % 10)

/-- Claim C9 (amended: the sampling is biased, not uniform):
`GenerateCode` always returns exactly six decimal digits — on the
strong path by mapping each random byte through `b % 10`, on the
timestamp fallback (used only when the strong source fails) via
`formatDigits` — and the byte-to-digit mapping gives digits 0–5 exactly
26 preimages and digits 6–9 exactly 25 among the 256 byte values
(nearly, but not exactly, uniform). -/
theorem c9_generate_code_amended :
    (∀ (f : Fin CodeLength → Nat) (nowNano : Nat),
        (GenerateCode (some f) nowNano).length = 6
        ∧ (GenerateCode (some f) nowNano).toList.all Char.isDigit = true
        ∧ GenerateCode (some f) nowNano = generateCodeFromBytes (List.ofFn f))
    ∧ (∀ nowNano : Nat,
        (GenerateCode none nowNano).length = 6
        ∧ (GenerateCode none nowNano).toList.all Char.isDigit = true
        ∧ GenerateCode none nowNano = fallbackCode nowNano)
    ∧ (∀ d : Fin 10,
        ((Finset.range 256).filter (fun b => digitIndex b = d.val)).card =
          if d.val ≤ 5 then 26 else 25) := by
  refine ⟨fun f nowNano => ⟨?_, ?_, rfl⟩, fun nowNano => ⟨?_, ?_, rfl⟩, ?_⟩
  · simp [GenerateCode, generateCodeFromBytes, String.length, CodeLength]
  · simp [GenerateCode, generateCodeFromBytes, String.toList, byteToDigitChar_isDigit]
  · simp [GenerateCode, fallbackCode, formatDigits, String.length, formatDigitsList_length,
      CodeLength]
  · simp [GenerateCode, fallbackCode, formatDigits, String.toList, formatDigitsList_all_digit]
  · decide

/-! ### C8 -/

/-- Claim C8, as stated, is false for the read inside `VerifyCode`: with
the store read failing on a cache error (here a connection failure,
duly wrapped by the store with the store-failure sentinel), `VerifyCode`
reports `ErrCodeExpired` — a different sentinel, not a wrapped
store-failure (`errors.Is` on it against `ErrStoreFailure` is false). -/
theorem c8_verify_counterexample :
    (verifyCodeWith
        (.error (wrapRedisErr "GET" "sms:code:13800000000" (.sentinel "connection refused")))
        "123456").1 = some errCodeExpired
    ∧ errorsIs errCodeExpired errStoreFailure = false := by
  constructor
  · rfl
  · decide

/-- Claim C8 (amended: the store-level operations wrap every cache error
with the store-failure sentinel, testable by a wrapping-aware
comparison with the cause still inspectable; `VerifyCode`, however,
collapses a cache error during its code read to `ErrCodeExpired`
rather than surfacing the wrapped store-failure). -/
theorem c8_store_failure_wrapping (op key : String) (e : GoErr) (c : String) (hc : c ≠ "") :
    errorsIs (wrapRedisErr op key e) errStoreFailure = true
    ∧ errorsIs (wrapRedisErr op key e) e = true
    ∧ (verifyCodeWith (.error (wrapRedisErr "GET" key e)) c).1 = some errCodeExpired := by
  refine ⟨?_, ?_, ?_⟩
  · exact errorsIs_join_left _ _ _ (errorsIs_self _)
  · exact errorsIs_join_right _ _ _ (errorsIs_wrap _ _ _ (errorsIs_self _))
  · simp [verifyCodeWith, hc]

/-- Witness for the amended C8 theorem at a concrete input. -/
theorem c8_store_failure_witness :
    ("1" : String) ≠ ""
    ∧ errorsIs (wrapRedisErr "GET" "k" .redisNil) errStoreFailure = true
    ∧ errorsIs (wrapRedisErr "GET" "k" .redisNil) .redisNil = true
    ∧ (verifyCodeWith (.error (wrapRedisErr "GET" "k" .redisNil)) "1").1 = some errCodeExpired :=
  ⟨by decide, c8_store_failure_wrapping "GET" "k" .redisNil "1" (by decide)⟩

/-! ### C4 -/

/-- Claim C4: `VerifyCode` rejects an empty input code with
`ErrCodeEmpty`; fails `ErrCodeExpired` when no code is stored; fails
`ErrCodeMismatch` when the stored (non-empty) code differs from the
input under exact string equality; on a match succeeds, deletes the
stored code, and a subsequent call with the same code fails
`ErrCodeExpired` (one-shot); and in every case it leaves the rate
window and the daily counter untouched. -/
theorem c4_verify_code_one_shot (st : SmsState) (pref phone c s : String) :
    VerifyCode st pref phone "" = (st, some errCodeEmpty)
    ∧ (st.code = none → c ≠ "" → VerifyCode st pref phone c = (st, some errCodeExpired))
    ∧ (st.code = some s → c ≠ "" → s ≠ "" → s ≠ c →
        VerifyCode st pref phone c = (st, some errCodeMismatch))
    ∧ (st.code = some c → c ≠ "" →
        VerifyCode st pref phone c = ({ st with code := none }, none)
        ∧ VerifyCode { st with code := none } pref phone c
            = ({ st with code := none }, some errCodeExpired))
    ∧ (VerifyCode st pref phone c).1.rate = st.rate
    ∧ (VerifyCode st pref phone c).1.daily = st.daily := by
  refine ⟨?_, fun h hc => ?_, fun h hc hs hne => ?_, fun h hc => ⟨?_, ?_⟩, ?_, ?_⟩
  · simp [VerifyCode, verifyCodeWith]
  · simp [VerifyCode, verifyCodeWith, GetCodeCtx, h, hc]
  · simp [VerifyCode, verifyCodeWith, GetCodeCtx, h, hc, hs, hne]
  · simp [VerifyCode, verifyCodeWith, GetCodeCtx, DeleteCodeCtx, h, hc]
  · simp [VerifyCode, verifyCodeWith, GetCodeCtx, hc]
  · by_cases hdel : (verifyCodeWith (GetCodeCtx st pref phone) c).2 = true <;>
      simp [VerifyCode, DeleteCodeCtx, hdel]
  · by_cases hdel : (verifyCodeWith (GetCodeCtx st pref phone) c).2 = true <;>
      simp [VerifyCode, DeleteCodeCtx, hdel]

/-- Witness for the C4 theorem at a concrete input: a stored code
verifies once, is deleted, and the repeat verify fails expired. -/
theorem c4_verify_code_witness :
    ("123456" : String) ≠ ""
    ∧ VerifyCode ⟨some "123456", ⟨∅, none⟩, none⟩ "sms" "13800000000" "123456"
        = (⟨none, ⟨∅, none⟩, none⟩, none)
    ∧ VerifyCode ⟨none, ⟨∅, none⟩, none⟩ "sms" "13800000000" "123456"
        = (⟨none, ⟨∅, none⟩, none⟩, some errCodeExpired) := by
  have h := (c4_verify_code_one_shot ⟨some "123456", ⟨∅, none⟩, none⟩ "sms" "13800000000"
      "123456" "123456").2.2.2.1 rfl (by decide)
  exact ⟨by decide, h.1, h.2⟩

/-! ### C7 -/

/-- Claim C7: `PeekRate` is read-only (the script issues no write
commands, so the cache state is returned unchanged); with all window
entries in the past it counts the timestamps within `now − window` to
`now` and returns `(allowed, 0)` when that count is below `maxCount`,
and otherwise returns denied with retry hint `earliest + window − now`
where `earliest` is the single earliest in-window timestamp;
`maxCount ≤ 0` always yields allowed with zero wait. -/
theorem c7_peek_rate (st : RateState) (now maxCount interval : ℤ)
    (hpast : ∀ ts ∈ st.window, ts ≤ now) :
    (luaPeekRate st (now - interval) maxCount).1 = st
    ∧ (maxCount ≤ 0 → PeekRateCtx st now maxCount interval = (true, 0))
    ∧ (0 < maxCount →
        (((st.window.filter fun ts => now - interval ≤ ts ∧ ts ≤ now).card : ℤ) < maxCount →
          PeekRateCtx st now maxCount interval = (true, 0))
        ∧ (maxCount ≤ ((st.window.filter fun ts => now - interval ≤ ts ∧ ts ≤ now).card : ℤ) →
          ∃ earliest : ℤ,
            (st.window.filter fun ts => now - interval ≤ ts).min = some earliest
            ∧ PeekRateCtx st now maxCount interval = (false, earliest + interval - now))) := by
  have hfil : (st.window.filter fun ts => now - interval ≤ ts)
      = (st.window.filter fun ts => now - interval ≤ ts ∧ ts ≤ now) := by
    apply Finset.filter_congr
    intro x hx
    simp [hpast x hx]
  refine ⟨?_, fun h => ?_, fun h => ⟨fun hcnt => ?_, fun hcnt => ?_⟩⟩
  · simp only [luaPeekRate]
    split
    · rfl
    · split <;> rfl
  · simp only [PeekRateCtx]
    rw [if_pos h]
  · have h0 : ¬ maxCount ≤ 0 := not_le.mpr h
    have hc : (((st.window.filter fun ts => now - interval ≤ ts).card : ℤ) < maxCount) := by
      rw [hfil]; exact hcnt
    simp only [PeekRateCtx, luaPeekRate]
    rw [if_neg h0, if_pos hc]
    simp
  · have h0 : ¬ maxCount ≤ 0 := not_le.mpr h
    have hc : ¬ (((st.window.filter fun ts => now - interval ≤ ts).card : ℤ) < maxCount) := by
      rw [hfil]; exact not_lt.mpr hcnt
    have hpos : 0 < (st.window.filter fun ts => now - interval ≤ ts).card := by
      rw [hfil]
      have hz : (0 : ℤ) <
          ((st.window.filter fun ts => now - interval ≤ ts ∧ ts ≤ now).card : ℤ) :=
        lt_of_lt_of_le h hcnt
      exact_mod_cast hz
    obtain ⟨e, he⟩ := Finset.min_of_nonempty (Finset.card_pos.mp hpos)
    have he' : (st.window.filter fun ts => now - interval ≤ ts).min = some e := he
    have hmem : e ∈ st.window.filter fun ts => now - interval ≤ ts := Finset.mem_of_min he
    have hlow : now - interval ≤ e := (Finset.mem_filter.mp hmem).2
    have hneg : ¬ (e + interval - now < 0) := by omega
    refine ⟨e, he', ?_⟩
    simp only [PeekRateCtx, luaPeekRate]
    rw [if_neg h0, if_neg hc, he']
    simp only []
    rw [if_neg (by decide : ¬ ((0 : ℤ) = 1)), if_neg hneg]

/-- Witness for the C7 theorem at a concrete input: a full window denies
with the hint computed from the earliest entry. -/
theorem c7_peek_rate_witness :
    (∀ ts ∈ (({3, 7} : Finset ℤ)), ts ≤ (10 : ℤ))
    ∧ (1 : ℤ) ≤ ((Finset.filter (fun ts => (10 : ℤ) - 8 ≤ ts ∧ ts ≤ 10) {3, 7}).card : ℤ)
    ∧ ∃ earliest : ℤ,
        (Finset.filter (fun ts => (10 : ℤ) - 8 ≤ ts) {3, 7}).min = some earliest
        ∧ PeekRateCtx ⟨{3, 7}, none⟩ 10 1 8 = (false, earliest + 8 - 10) := by
  refine ⟨by decide, by decide, ?_⟩
  exact ((c7_peek_rate ⟨{3, 7}, none⟩ 10 1 8 (by decide)).2.2 (by decide)).2 (by decide)

/-! ### C6 -/

/-- Claim C6: when the sender fails during `SendCode` (all earlier steps
passing), the service deletes the code it just saved before returning —
the delete's own result is discarded and never masks the sender error —
and returns the send-failure wrap of the sender's error as the cause
(`errors.Is` against the cause holds); immediately afterwards a
`GetCode` for that phone finds no stored code, so a verify read reports
`ErrCodeExpired`. -/
theorem c6_sender_failure_compensation (cfg : SMSRuntimeConfig) (st : SmsState)
    (pref phone : String) (now endOfDaySecs : ℤ) (gen c : String) (e : GoErr)
    (deleteRes : Option GoErr)
    (he : cfg.enabled = true) (hp : phone ≠ "")
    (hr : (CheckRateLimitCtx st.rate now cfg.rateMax cfg.rateWindow).2 = true)
    (hd : 0 < cfg.dailyMax → (IncrementDailyCountCtx st.daily endOfDaySecs).2 ≤ cfg.dailyMax)
    (hc : c ≠ "") :
    (SendCode cfg st phone true now endOfDaySecs gen (some e) deleteRes).2
        = some (.wrap "短信发送失败" e)
    ∧ errorsIs (.wrap "短信发送失败" e) e = true
    ∧ (SendCode cfg st phone true now endOfDaySecs gen (some e) deleteRes).1.code = none
    ∧ GetCodeCtx (SendCode cfg st phone true now endOfDaySecs gen (some e) deleteRes).1 pref phone
        = .error (wrapRedisErr "GET" (codeKey pref phone) .redisNil)
    ∧ (VerifyCode (SendCode cfg st phone true now endOfDaySecs gen (some e) deleteRes).1
        pref phone c).2 = some errCodeExpired
    ∧ SendCode cfg st phone true now endOfDaySecs gen (some e) deleteRes
        = SendCode cfg st phone true now endOfDaySecs gen (some e) none := by
  have key : (SendCode cfg st phone true now endOfDaySecs gen (some e) deleteRes).2
        = some (.wrap "短信发送失败" e)
      ∧ (SendCode cfg st phone true now endOfDaySecs gen (some e) deleteRes).1.code = none
      ∧ SendCode cfg st phone true now endOfDaySecs gen (some e) deleteRes
          = SendCode cfg st phone true now endOfDaySecs gen (some e) none := by
    by_cases hdm : cfg.dailyMax ≤ 0
    · simp [SendCode, he, hp, hr, hdm, SaveCodeCtx, DeleteCodeCtx]
    · have hgt : ¬ cfg.dailyMax < (IncrementDailyCountCtx st.daily endOfDaySecs).2 :=
        not_lt.mpr (hd (lt_of_not_le hdm))
      simp [SendCode, he, hp, hr, hdm, hgt, SaveCodeCtx, DeleteCodeCtx]
  obtain ⟨h1, h2, h3⟩ := key
  refine ⟨h1, errorsIs_wrap _ _ _ (errorsIs_self e), h2, ?_, ?_, h3⟩
  · simp [GetCodeCtx, h2]
  · simp [VerifyCode, verifyCodeWith, GetCodeCtx, h2, hc]

/-- Witness for the C6 theorem at a concrete input, with a failing
delete result to exhibit that it is swallowed. -/
theorem c6_sender_failure_witness :
    ((⟨true, 300, 0, 60, 0, ""⟩ : SMSRuntimeConfig).enabled = true)
    ∧ ("13800000001" : String) ≠ ""
    ∧ (SendCode ⟨true, 300, 0, 60, 0, ""⟩ ⟨none, ⟨∅, none⟩, none⟩ "13800000001" true 0 100
        "123456" (some (.sentinel "provider down")) (some (.sentinel "delete failed"))).2
        = some (.wrap "短信发送失败" (.sentinel "provider down"))
    ∧ (SendCode ⟨true, 300, 0, 60, 0, ""⟩ ⟨none, ⟨∅, none⟩, none⟩ "13800000001" true 0 100
        "123456" (some (.sentinel "provider down")) (some (.sentinel "delete failed"))).1.code
        = none := by
  have h := c6_sender_failure_compensation ⟨true, 300, 0, 60, 0, ""⟩ ⟨none, ⟨∅, none⟩, none⟩
      "sms" "13800000001" 0 100 "123456" "123456" (.sentinel "provider down")
      (some (.sentinel "delete failed")) rfl (by decide) (by decide) (by decide) (by decide)
  exact ⟨rfl, by decide, h.1, h.2.2.1⟩

/-! ### Ticket helper lemmas -/

lemma applyOp_none (now : ℤ) (op : TicketOp) : applyOp none now op = none := by
  cases op <;> rfl

lemma runOps_none (ops : List (ℤ × TicketOp)) : runOps none ops = none := by
  induction ops with
  | nil => rfl
  | cons p rest ih =>
    obtain ⟨pnow, pop⟩ := p
    rw [runOps, applyOp_none]
    exact ih

lemma updateTicket_fst_cases (t : Ticket) (now : ℤ) (f : Ticket → Except GoErr Ticket) :
    (UpdateTicket (some t) now f).1 = some t
    ∨ ∃ u, f t = .ok u ∧ (UpdateTicket (some t) now f).1 = some { u with updatedAt := now } := by
  simp only [UpdateTicket]
  by_cases h1 : t.expiresAt < now
  · rw [if_pos h1]
    left
    rfl
  · rw [if_neg h1]
    cases hf : f t with
    | error e => left; rfl
    | ok u =>
      by_cases h2 : u.expiresAt - now ≤ 0
      · left
        simp [h2]
      · right
        refine ⟨u, rfl, ?_⟩
        simp [h2]

lemma markScannedMutator_expiry (meta : Metadata) (u u' : Ticket)
    (h : markScannedMutator meta u = .ok u') : u'.expiresAt = u.expiresAt := by
  unfold markScannedMutator at h
  cases hs : u.status <;> rw [hs] at h
  case pending => injection h with h2; rw [← h2]
  case scanned => injection h with h2; rw [← h2]
  case confirmed => exact absurd h (by simp)
  case rejected => exact absurd h (by simp)

lemma confirmMutator_expiry (uid : ℤ) (utype : String) (meta : Metadata) (u u' : Ticket)
    (h : confirmMutator uid utype meta u = .ok u') : u'.expiresAt = u.expiresAt := by
  unfold confirmMutator at h
  by_cases hs : u.status = .scanned
  · rw [if_pos hs] at h
    injection h with h2
    rw [← h2]
  · rw [if_neg hs] at h
    exact absurd h (by simp)

lemma rejectMutator_expiry (reason : String) (meta : Metadata) (u u' : Ticket)
    (h : rejectMutator reason meta u = .ok u') : u'.expiresAt = u.expiresAt := by
  unfold rejectMutator at h
  cases hs : u.status <;> rw [hs] at h
  case pending => injection h with h2; rw [← h2]
  case scanned => injection h with h2; rw [← h2]
  case confirmed => exact absurd h (by simp)
  case rejected => exact absurd h (by simp)

lemma markScannedMutator_rank (meta : Metadata) (u u' : Ticket)
    (h : markScannedMutator meta u = .ok u') :
    statusRank u.status ≤ statusRank u'.status := by
  unfold markScannedMutator at h
  cases hs : u.status <;> rw [hs] at h
  case pending => injection h with h2; rw [← h2]; simp [statusRank]
  case scanned => injection h with h2; rw [← h2]
  case confirmed => exact absurd h (by simp)
  case rejected => exact absurd h (by simp)

lemma confirmMutator_rank (uid : ℤ) (utype : String) (meta : Metadata) (u u' : Ticket)
    (h : confirmMutator uid utype meta u = .ok u') :
    statusRank u.status ≤ statusRank u'.status := by
  unfold confirmMutator at h
  by_cases hs : u.status = .scanned
  · rw [if_pos hs] at h
    injection h with h2
    rw [← h2, hs]
    simp [statusRank]
  · rw [if_neg hs] at h
    exact absurd h (by simp)

lemma rejectMutator_rank (reason : String) (meta : Metadata) (u u' : Ticket)
    (h : rejectMutator reason meta u = .ok u') :
    statusRank u.status ≤ statusRank u'.status := by
  unfold rejectMutator at h
  cases hs : u.status <;> rw [hs] at h
  case pending => injection h with h2; rw [← h2]; simp [statusRank]
  case scanned => injection h with h2; rw [← h2]; simp [statusRank]
  case confirmed => exact absurd h (by simp)
  case rejected => exact absurd h (by simp)

lemma applyOp_rank (now : ℤ) (op : TicketOp) (t t' : Ticket)
    (h : applyOp (some t) now op = some t') :
    statusRank t.status ≤ statusRank t'.status := by
  cases op with
  | scan meta =>
    have h' : (UpdateTicket (some t) now (markScannedMutator meta)).1 = some t' := h
    rcases updateTicket_fst_cases t now (markScannedMutator meta) with hcase | ⟨u, hu, hcase⟩
    · rw [hcase] at h'
      cases Option.some.inj h'
      exact le_rfl
    · rw [hcase] at h'
      cases Option.some.inj h'
      exact markScannedMutator_rank meta t u hu
  | confirmOp uid utype meta =>
    have h' : (UpdateTicket (some t) now (confirmMutator uid utype meta)).1 = some t' := h
    rcases updateTicket_fst_cases t now (confirmMutator uid utype meta) with hcase | ⟨u, hu, hcase⟩
    · rw [hcase] at h'
      cases Option.some.inj h'
      exact le_rfl
    · rw [hcase] at h'
      cases Option.some.inj h'
      exact confirmMutator_rank uid utype meta t u hu
  | rejectOp reason meta =>
    have h' : (UpdateTicket (some t) now (rejectMutator reason meta)).1 = some t' := h
    rcases updateTicket_fst_cases t now (rejectMutator reason meta) with hcase | ⟨u, hu, hcase⟩
    · rw [hcase] at h'
      cases Option.some.inj h'
      exact le_rfl
    · rw [hcase] at h'
      cases Option.some.inj h'
      exact rejectMutator_rank reason meta t u hu

lemma runOps_rank (ops : List (ℤ × TicketOp)) (t t' : Ticket)
    (h : runOps (some t) ops = some t') :
    statusRank t.status ≤ statusRank t'.status := by
  induction ops generalizing t with
  | nil =>
    rw [runOps] at h
    cases Option.some.inj h
    exact le_rfl
  | cons p rest ih =>
    obtain ⟨pnow, pop⟩ := p
    rw [runOps] at h
    cases hstep : applyOp (some t) pnow pop with
    | none =>
      rw [hstep, runOps_none] at h
      exact absurd h (by simp)
    | some t1 =>
      rw [hstep] at h
      exact le_trans (applyOp_rank pnow pop t t1 hstep) (ih t1 h)

/-! ### C2 -/

/-- Claim C2: for a live ticket (strictly before expiry), `MarkScanned`
succeeds from `pending` (advancing to `scanned`) and from `scanned`
(idempotently, changing only metadata and `updated_at`); `Confirm`
succeeds exactly from `scanned`; `Reject` succeeds exactly from
`pending` or `scanned`; once the status is `confirmed` or `rejected`
every further transition fails with `ErrTicketExpired` and leaves the
stored ticket unchanged; and along any sequence of the three actions
the observed status rank only ever advances
(`pending ≤ scanned ≤ terminal`). -/
theorem c2_ticket_status_machine (t : Ticket) (now : ℤ) (meta : Metadata)
    (uid : ℤ) (utype reason : String) (hExp : now < t.expiresAt) :
    (t.status = TicketStatus.pending →
      MarkScanned (some t) now meta =
        (some { t with status := .scanned, metadata := mergeMetadata t.metadata meta,
                       updatedAt := now },
         some (t.expiresAt - now),
         .ok { t with status := .scanned, metadata := mergeMetadata t.metadata meta,
                      updatedAt := now }))
    ∧ (t.status = TicketStatus.scanned →
      MarkScanned (some t) now meta =
        (some { t with metadata := mergeMetadata t.metadata meta, updatedAt := now },
         some (t.expiresAt - now),
         .ok { t with metadata := mergeMetadata t.metadata meta, updatedAt := now }))
    ∧ (t.status = TicketStatus.scanned →
      Confirm (some t) now uid utype meta =
        (some { t with status := .confirmed, userID := uid, userType := utype,
                       metadata := mergeMetadata t.metadata meta, updatedAt := now },
         some (t.expiresAt - now),
         .ok { t with status := .confirmed, userID := uid, userType := utype,
                      metadata := mergeMetadata t.metadata meta, updatedAt := now }))
    ∧ (t.status ≠ TicketStatus.scanned →
      Confirm (some t) now uid utype meta = (some t, none, .error errTicketExpired))
    ∧ (t.status = TicketStatus.pending ∨ t.status = TicketStatus.scanned →
      Reject (some t) now reason meta =
        (some { t with status := .rejected,
                       metadata := mergeMetadata
                         (mergeMetadata t.metadata [("reject_reason", reason)]) meta,
                       updatedAt := now },
         some (t.expiresAt - now),
         .ok { t with status := .rejected,
                      metadata := mergeMetadata
                        (mergeMetadata t.metadata [("reject_reason", reason)]) meta,
                      updatedAt := now }))
    ∧ (t.status = TicketStatus.confirmed ∨ t.status = TicketStatus.rejected →
      MarkScanned (some t) now meta = (some t, none, .error errTicketExpired)
      ∧ Confirm (some t) now uid utype meta = (some t, none, .error errTicketExpired)
      ∧ Reject (some t) now reason meta = (some t, none, .error errTicketExpired))
    ∧ (∀ (ops : List (ℤ × TicketOp)) (t' : Ticket),
        runOps (some t) ops = some t' → statusRank t.status ≤ statusRank t'.status) := by
  have hne : ¬ t.expiresAt < now := by omega
  have hrem : ¬ t.expiresAt - now ≤ 0 := by omega
  refine ⟨fun hs => ?_, fun hs => ?_, fun hs => ?_, fun hs => ?_, fun hs => ?_,
    fun hs => ?_, fun ops t' h => runOps_rank ops t t' h⟩
  · show UpdateTicket (some t) now (markScannedMutator meta) = _
    simp only [UpdateTicket, markScannedMutator, hs]
    rw [if_neg hne]
    simp [hrem]
  · show UpdateTicket (some t) now (markScannedMutator meta) = _
    simp only [UpdateTicket, markScannedMutator, hs]
    rw [if_neg hne]
    simp [hrem]
  · show UpdateTicket (some t) now (confirmMutator uid utype meta) = _
    simp only [UpdateTicket, confirmMutator, hs]
    rw [if_neg hne]
    simp [hrem]
  · show UpdateTicket (some t) now (confirmMutator uid utype meta) = _
    simp only [UpdateTicket, confirmMutator]
    rw [if_neg hne, if_neg hs]
  · show UpdateTicket (some t) now (rejectMutator reason meta) = _
    rcases hs with hs | hs <;>
      · simp only [UpdateTicket, rejectMutator, hs]
        rw [if_neg hne]
        simp [hrem]
  · rcases hs with hs | hs <;>
      exact ⟨by
          show UpdateTicket (some t) now (markScannedMutator meta) = _
          simp only [UpdateTicket, markScannedMutator, hs]
          rw [if_neg hne],
        by
          show UpdateTicket (some t) now (confirmMutator uid utype meta) = _
          simp only [UpdateTicket, confirmMutator, hs]
          rw [if_neg hne]
          simp,
        by
          show UpdateTicket (some t) now (rejectMutator reason meta) = _
          simp only [UpdateTicket, rejectMutator, hs]
          rw [if_neg hne]⟩

/-- Witness for the C2 theorem at a concrete input: a fresh pending
ticket is scanned, merging the device metadata. -/
theorem c2_ticket_status_machine_witness :
    ((0 : ℤ) < 120)
    ∧ MarkScanned (some ⟨"T", .pending, 120, 0, "", 0, 0, []⟩) 0 [("device", "iphone")] =
        (some ⟨"T", .scanned, 120, 0, "", 0, 0, [("device", "iphone")]⟩,
         some 120,
         .ok ⟨"T", .scanned, 120, 0, "", 0, 0, [("device", "iphone")]⟩) := by
  refine ⟨by decide, ?_⟩
  have h := (c2_ticket_status_machine ⟨"T", .pending, 120, 0, "", 0, 0, []⟩ 0
      [("device", "iphone")] 0 "" "" (by decide)).1 rfl
  rw [h]
  rfl

/-! ### C3 -/

/-- Claim C3: `UpdateTicket` (with any expiry-preserving mutator, which
every mutator of this repository is — see the last three conjuncts)
never extends a ticket's lifetime: on success the written ticket keeps
`expires_at` unchanged and the TTL written back equals
`expires_at − now` (the remaining lifetime, necessarily positive);
when that remainder is non-positive it fails `ErrTicketExpired`
without writing; and `expires_at` observed through `GetTicket` after
the update equals the value before it. -/
theorem c3_no_lifetime_extension (t : Ticket) (now now2 : ℤ)
    (f : Ticket → Except GoErr Ticket)
    (hf : ∀ u u', f u = .ok u' → u'.expiresAt = u.expiresAt) :
    (∀ u, f t = .ok u → t.expiresAt - now ≤ 0 →
      UpdateTicket (some t) now f = (some t, none, .error errTicketExpired))
    ∧ (∀ u2, (UpdateTicket (some t) now f).2.2 = .ok u2 →
      u2.expiresAt = t.expiresAt
      ∧ (UpdateTicket (some t) now f).2.1 = some (t.expiresAt - now)
      ∧ 0 < t.expiresAt - now
      ∧ (UpdateTicket (some t) now f).1 = some u2)
    ∧ (∀ u3, GetTicket ((UpdateTicket (some t) now f).1) now2 = .ok u3 →
      u3.expiresAt = t.expiresAt)
    ∧ (∀ (meta : Metadata) u u', markScannedMutator meta u = .ok u' →
      u'.expiresAt = u.expiresAt)
    ∧ (∀ (uid : ℤ) (utype : String) (meta : Metadata) u u',
      confirmMutator uid utype meta u = .ok u' → u'.expiresAt = u.expiresAt)
    ∧ (∀ (reason : String) (meta : Metadata) u u',
      rejectMutator reason meta u = .ok u' → u'.expiresAt = u.expiresAt) := by
  refine ⟨fun u hok hle => ?_, fun u2 hok2 => ?_, fun u3 hg => ?_,
    fun meta u u' h => markScannedMutator_expiry meta u u' h,
    fun uid utype meta u u' h => confirmMutator_expiry uid utype meta u u' h,
    fun reason meta u u' h => rejectMutator_expiry reason meta u u' h⟩
  · simp only [UpdateTicket]
    by_cases h1 : t.expiresAt < now
    · rw [if_pos h1]
    · rw [if_neg h1, hok]
      have h2 : u.expiresAt - now ≤ 0 := by
        rw [hf t u hok]
        exact hle
      simp [h2]
  · by_cases h1 : t.expiresAt < now
    · exfalso
      simp only [UpdateTicket, if_pos h1] at hok2
      exact absurd hok2 (by simp)
    · cases hfc : f t with
      | error e =>
        exfalso
        simp only [UpdateTicket, if_neg h1, hfc] at hok2
        exact absurd hok2 (by simp)
      | ok u =>
        have hexp : u.expiresAt = t.expiresAt := hf t u hfc
        by_cases h2 : u.expiresAt - now ≤ 0
        · exfalso
          simp only [UpdateTicket, if_neg h1, hfc] at hok2
          rw [if_pos h2] at hok2
          exact absurd hok2 (by simp)
        · simp only [UpdateTicket, if_neg h1, hfc] at hok2 ⊢
          rw [if_neg h2] at hok2
          injection hok2 with h3
          rw [← h3]
          refine ⟨hexp, ?_, by omega, ?_⟩
          · rw [if_neg h2]
            simp [hexp]
          · rw [if_neg h2]
  · rcases updateTicket_fst_cases t now f with hcase | ⟨u, hu, hcase⟩
    · rw [hcase] at hg
      simp only [GetTicket] at hg
      by_cases hx : t.expiresAt < now2
      · rw [if_pos hx] at hg
        exact absurd hg (by simp)
      · rw [if_neg hx] at hg
        injection hg with hh
        rw [← hh]
    · rw [hcase] at hg
      simp only [GetTicket] at hg
      by_cases hx : ({ u with updatedAt := now } : Ticket).expiresAt < now2
      · rw [if_pos hx] at hg
        exact absurd hg (by simp)
      · rw [if_neg hx] at hg
        injection hg with hh
        rw [← hh]
        exact hf t u hu

/-- Witness for the C3 theorem at a concrete input, with the identity
mutator. -/
theorem c3_no_lifetime_extension_witness :
    (⟨"T", .pending, 120, 0, "", 0, 10, []⟩ : Ticket).expiresAt = 120
    ∧ (UpdateTicket (some ⟨"T", .pending, 120, 0, "", 0, 0, []⟩) 10 Except.ok).2.1
        = some 110
    ∧ (0 : ℤ) < 120 - 10 := by
  have h := (c3_no_lifetime_extension ⟨"T", .pending, 120, 0, "", 0, 0, []⟩ 10 0 Except.ok
      (fun u u' hok => by cases hok; rfl)).2.1
      ⟨"T", .pending, 120, 0, "", 0, 10, []⟩ rfl
  refine ⟨rfl, ?_, by decide⟩
  have h2 := h.2.1
  rw [h2]
  rfl

/-! ### C10 -/

/-- Claim C10: at the exact expiry instant (`now = expires_at`),
`GetTicket` still returns the ticket (its check fails only when `now`
is strictly after `expires_at`), while `UpdateTicket` at the same
instant — with a mutator that succeeds and preserves `expires_at` —
fails `ErrTicketExpired` without writing, because the remaining TTL it
would write is not strictly positive. -/
theorem c10_boundary_instant (t : Ticket) (f : Ticket → Except GoErr Ticket) (u : Ticket)
    (hok : f t = .ok u) (hpres : u.expiresAt = t.expiresAt) :
    GetTicket (some t) t.expiresAt = .ok t
    ∧ UpdateTicket (some t) t.expiresAt f = (some t, none, .error errTicketExpired) := by
  constructor
  · simp [GetTicket]
  · simp only [UpdateTicket]
    rw [if_neg (lt_irrefl _), hok]
    have h2 : u.expiresAt - t.expiresAt ≤ 0 := by omega
    simp [h2]

/-- Witness for the C10 theorem at a concrete input. -/
theorem c10_boundary_witness :
    ((Except.ok (⟨"T", .pending, 120, 0, "", 0, 0, []⟩ : Ticket) : Except GoErr Ticket)
        = Except.ok (⟨"T", .pending, 120, 0, "", 0, 0, []⟩ : Ticket))
    ∧ GetTicket (some ⟨"T", .pending, 120, 0, "", 0, 0, []⟩) 120
        = .ok ⟨"T", .pending, 120, 0, "", 0, 0, []⟩
    ∧ UpdateTicket (some ⟨"T", .pending, 120, 0, "", 0, 0, []⟩) 120 Except.ok
        = (some ⟨"T", .pending, 120, 0, "", 0, 0, []⟩, none, .error errTicketExpired) := by
  have h := c10_boundary_instant ⟨"T", .pending, 120, 0, "", 0, 0, []⟩ Except.ok
      ⟨"T", .pending, 120, 0, "", 0, 0, []⟩ rfl rfl
  exact ⟨rfl, h.1, h.2⟩

end ThePass
